import Mathlib

/-!
Shallow embedding of the four AWS Lambda handlers of the
terraform-multi-environments repository (modules/lambdas):
influxdb_daily_backup.py, influxdb_daily_restore.py,
influxdb_monthly_backup.py, influxdb_monthly_restore.py.

External collaborators (object storage, the secret store, the influx CLI
tool, the datetime library) are modelled as oracles supplied in an
environment record; the checkpoint object store is modelled as real state
threaded through the run, so that claims about stored checkpoints are
claims about that state.  Python exceptions are modelled with Except,
carrying the run state at the point of the raise (after any finally
blocks have run), so that claims about the state left behind by a failed
run can be stated.  Timestamps are integers (seconds); 24 hours is 86400
seconds.
-/

namespace TfMulti

/-- Result of invoking the external influx CLI tool once. -/
inductive ToolResult where
  | ok
  | fail
  | timeout
deriving DecidableEq

/-- A Python exception: either subprocess.TimeoutExpired or any other
Exception, each carrying the message text. -/
inductive Err where
  | timeout (msg : String)
  | exc (msg : String)
deriving DecidableEq

/-- The error text placed in the 500 response body, mirroring the two
except clauses at the bottom of every handler. -/
def Err.toMessage : Err → String
  | .timeout m => "Operation timed out: " ++ m
  | .exc m => m

/-- Python str.strip(): remove leading and trailing whitespace. -/
def pyStrip (s : String) : String :=
  String.mk
    (((s.data.dropWhile Char.isWhitespace).reverse.dropWhile
      Char.isWhitespace).reverse)

namespace DailyBackup

/-- One element of the event's bucket list before validation.  isDict
models the Python check: the element is a dict having both a name key and
a measurements key. -/
structure RawBucket where
  isDict : Bool
  name : String
  measurements : List String
deriving DecidableEq

/-- A bucket configuration after the validation loop has trimmed the name
and the measurements. -/
structure ValidBucket where
  name : String
  measurements : List String
deriving DecidableEq

/-- Outcome of the influx query subprocess for one bucket: timeout,
non-zero exit, or success with the byte size of the CSV it wrote. -/
inductive ExtractResult where
  | timeout
  | fail
  | ok (size : Nat)
deriving DecidableEq

/-- Oracle environment of one daily-backup invocation.  Storage faults,
tool outcomes and cleanup outcomes are keyed by bucket name. -/
structure Env where
  now : Int
  dateStr : String
  envVarsOk : Bool
  tokenOk : Bool
  envBucketConfig : Option (Option (List RawBucket))
  readFault : String → Bool
  writeFault : String → Bool
  extract : String → ExtractResult
  compressOk : String → Bool
  uploadOk : String → Bool
  removeCsvOk : String → Bool
  removeGzipOk : String → Bool

/-- The invocation event: event.get("buckets", []), the empty list
standing for an absent field, as in the source. -/
structure Event where
  buckets : List RawBucket

/-- State threaded through a run: the stored per-bucket checkpoint
objects, the uploaded artifact keys, the succeeded buckets, and whether
the two fixed temporary file paths currently hold a file. -/
structure RunState where
  ckpts : List (String × Int)
  uploads : List String
  backedUp : List String
  csvExists : Bool
  gzipExists : Bool
deriving DecidableEq

/-- Look up the stored checkpoint object for a bucket. -/
def ckLookup : List (String × Int) → String → Option Int
  | [], _ => none
  | (k, v) :: rest, b => if k = b then some v else ckLookup rest b

/-- Overwrite (or create) the stored checkpoint object for a bucket,
as an S3 put to the deterministic key does. -/
def ckSet : List (String × Int) → String → Int → List (String × Int)
  | [], k, v => [(k, v)]
  | (a, w) :: rest, k, v =>
    if a = k then (k, v) :: rest else (a, w) :: ckSet rest k v

/-- The hardcoded default bucket configuration. -/
def defaultBuckets : List RawBucket :=
  [⟨true, "asset_bucket", ["cloud_telemetry", "telemetry"]⟩,
   ⟨true, "cloud_bucket", ["savings"]⟩]

/-- Resolve the bucket list: the event's list when non-empty, otherwise
the environment variable (whose invalid JSON falls back to the default),
otherwise the default. -/
def resolveBuckets (env : Env) (event : Event) : List RawBucket :=
  if event.buckets ≠ [] then event.buckets
  else
    match env.envBucketConfig with
    | none => defaultBuckets
    | some none => defaultBuckets
    | some (some l) => l

/-- The validation loop's measurement rewrite: strip each entry, keep the
non-empty results. -/
def trimMeasurements (ms : List String) : List String :=
  (ms.map pyStrip).filter (fun m => m ≠ "")

/-- The validation loop: raise ValueError at the first non-dict entry,
otherwise trim names and measurements. -/
def validateBuckets : List RawBucket → Except Err (List ValidBucket)
  | [] => .ok []
  | b :: rest =>
    if b.isDict then
      match validateBuckets rest with
      | .error e => .error e
      | .ok vs => .ok (⟨pyStrip b.name, trimMeasurements b.measurements⟩ :: vs)
    else .error (.exc "Invalid bucket configuration")

/-- The deterministic daily artifact key for a bucket. -/
def s3Key (env : Env) (bucket : String) : String :=
  "influx-backups/daily/" ++ env.dateStr ++ "/" ++ bucket ++ "/data-" ++
    env.dateStr ++ ".csv.gz"

/-- get_last_backup_time: read the checkpoint object; NoSuchKey defaults
to now minus 24 hours; any other ClientError re-raises. -/
def get_last_backup_time (env : Env) (ckpts : List (String × Int))
    (bucket : String) : Except Err Int :=
  if env.readFault bucket then
    .error (.exc ("Failed to retrieve last backup timestamp for " ++ bucket))
  else
    match ckLookup ckpts bucket with
    | some ts => .ok ts
    | none => .ok (env.now - 86400)

/-- update_last_backup_time: put the checkpoint object; ClientError
re-raises and leaves the store unchanged. -/
def update_last_backup_time (env : Env) (ckpts : List (String × Int))
    (bucket : String) (ts : Int) : Except Err (List (String × Int)) :=
  if env.writeFault bucket then
    .error (.exc ("Failed to update last backup timestamp for " ++ bucket))
  else .ok (ckSet ckpts bucket ts)

/-- One iteration of the daily-backup bucket loop, from the empty-
measurements skip through extraction, the empty-output branch,
compression, upload (with its finally-block gzip cleanup) and the
checkpoint write.  An error result carries the state at the raise,
after any finally block has run. -/
def processBucket (env : Env) (st : RunState) (b : ValidBucket) :
    Except (RunState × Err) RunState :=
  if b.measurements = [] then .ok st
  else
    match get_last_backup_time env st.ckpts b.name with
    | .error e => .error (st, e)
    | .ok _startTime =>
      let st1 : RunState := { st with csvExists := true }
      match env.extract b.name with
      | .timeout => .error (st1, .timeout ("query for " ++ b.name))
      | .fail => .error (st1, .exc ("Query failed for " ++ b.name))
      | .ok size =>
        if size = 0 then
          let st2 : RunState := { st1 with csvExists := !(env.removeCsvOk b.name) }
          match update_last_backup_time env st2.ckpts b.name env.now with
          | .error e => .error (st2, e)
          | .ok ck =>
            .ok { st2 with ckpts := ck, backedUp := st2.backedUp ++ [b.name] }
        else
          let st2 : RunState := { st1 with gzipExists := true }
          if env.compressOk b.name then
            let st3 : RunState := { st2 with csvExists := !(env.removeCsvOk b.name) }
            if env.uploadOk b.name then
              let st4 : RunState :=
                { st3 with uploads := st3.uploads ++ [s3Key env b.name],
                           gzipExists := !(env.removeGzipOk b.name) }
              match update_last_backup_time env st4.ckpts b.name env.now with
              | .error e => .error (st4, e)
              | .ok ck =>
                .ok { st4 with ckpts := ck, backedUp := st4.backedUp ++ [b.name] }
            else
              .error ({ st3 with gzipExists := !(env.removeGzipOk b.name) },
                      .exc ("Failed to upload for " ++ b.name))
          else .error (st2, .exc ("Compression failed for " ++ b.name))

/-- The bucket loop: sequential, aborting at the first raise. -/
def runBuckets (env : Env) : RunState → List ValidBucket →
    Except (RunState × Err) RunState
  | st, [] => .ok st
  | st, b :: rest =>
    match processBucket env st b with
    | .error e => .error e
    | .ok st' => runBuckets env st' rest

/-- The structured response: statusCode plus the JSON body fields. -/
structure Response where
  statusCode : Nat
  message : Option String
  buckets : Option (List String)
  error : Option String
deriving DecidableEq

/-- The state at the start of a run, given the pre-existing checkpoint
store contents. -/
def initState (ck0 : List (String × Int)) : RunState :=
  { ckpts := ck0, uploads := [], backedUp := [], csvExists := false,
    gzipExists := false }

/-- The daily-backup handler, also exposing the final world state. -/
def runWithState (env : Env) (event : Event) (ck0 : List (String × Int)) :
    Response × RunState :=
  if env.envVarsOk then
    match validateBuckets (resolveBuckets env event) with
    | .error e => (⟨500, none, none, some e.toMessage⟩, initState ck0)
    | .ok bs =>
      if env.tokenOk then
        match runBuckets env (initState ck0) bs with
        | .error (st, e) => (⟨500, none, none, some e.toMessage⟩, st)
        | .ok st =>
          (⟨200, some "Incremental backup completed", some st.backedUp, none⟩, st)
      else (⟨500, none, none, some "Failed to retrieve secret"⟩, initState ck0)
  else
    (⟨500, none, none,
      some "Missing required environment variables"⟩, initState ck0)

/-- lambda_handler: the caller-visible response of a daily-backup run. -/
def lambda_handler (env : Env) (event : Event)
    (ck0 : List (String × Int)) : Response :=
  (runWithState env event ck0).1

end DailyBackup

namespace DailyRestore

/-- Outcome of s3.download_file for one bucket's artifact: success,
ClientError with code 404, or any other ClientError. -/
inductive DownloadResult where
  | ok
  | notFound
  | clientError
deriving DecidableEq

/-- Oracle environment of one daily-restore invocation.  dateOk models
datetime.strptime accepting the string in format YYYY-MM-DD; the
per-bucket oracles are keyed by source bucket name, and writeTool by
source and destination name. -/
structure Env where
  envVarsOk : Bool
  tokenOk : Bool
  dateOk : String → Bool
  download : String → DownloadResult
  decompressOk : String → Bool
  writeTool : String → String → ToolResult

/-- The invocation event.  The buckets field is carried because requests
may contain one, although this handler never reads it. -/
structure Event where
  backup_date : Option String
  buckets : List DailyBackup.RawBucket
deriving DecidableEq

/-- State built by the restore loop: the (source, destination) pairs the
loop has begun processing, and the restored and failed bucket lists. -/
structure RunState where
  processed : List (String × String)
  restored : List String
  failed : List String
deriving DecidableEq

/-- One iteration of the restore loop.  Every failure inside the loop
body (404, other download error, decompression error, load-tool non-zero
exit or timeout) is caught, the bucket recorded as failed, and the loop
continues, so the iteration never raises. -/
def restoreBucket (env : Env) (st : RunState) (b : String × String) :
    RunState :=
  let st0 : RunState := { st with processed := st.processed ++ [b] }
  match env.download b.1 with
  | .notFound => { st0 with failed := st0.failed ++ [b.1] }
  | .clientError => { st0 with failed := st0.failed ++ [b.1] }
  | .ok =>
    if env.decompressOk b.1 then
      match env.writeTool b.1 b.2 with
      | .ok => { st0 with restored := st0.restored ++ [b.1] }
      | .fail => { st0 with failed := st0.failed ++ [b.1] }
      | .timeout => { st0 with failed := st0.failed ++ [b.1] }
    else { st0 with failed := st0.failed ++ [b.1] }

/-- The hardcoded (source, destination) bucket pairs of the daily
restore. -/
def restoreTargets : List (String × String) :=
  [("asset_bucket", "restored_asset_bucket"),
   ("cloud_bucket", "restored_cloud_bucket")]

/-- The structured response: statusCode plus the JSON body fields. -/
structure Response where
  statusCode : Nat
  message : Option String
  restored_buckets : Option (List String)
  failed_buckets : Option (List String)
  error : Option String
deriving DecidableEq

/-- The daily-restore handler, also exposing the loop's final state. -/
def runWithState (env : Env) (event : Event) : Response × RunState :=
  if env.envVarsOk then
    match event.backup_date with
    | none =>
      (⟨500, none, none, none, some "Missing backup_date in event"⟩, ⟨[], [], []⟩)
    | some d =>
      if env.dateOk d then
        if env.tokenOk then
          let st := restoreTargets.foldl (restoreBucket env) ⟨[], [], []⟩
          if st.restored = [] ∧ st.failed ≠ [] then
            (⟨500, none, none, some st.failed,
              some "Restoration failed for all buckets"⟩, st)
          else
            (⟨if st.restored ≠ [] then 200 else 500,
              some "Restoration completed", some st.restored, some st.failed,
              none⟩, st)
        else
          (⟨500, none, none, none, some "Failed to retrieve secret"⟩, ⟨[], [], []⟩)
      else
        (⟨500, none, none, none, some "Invalid backup_date format"⟩, ⟨[], [], []⟩)
  else
    (⟨500, none, none, none,
      some "Missing required environment variables"⟩, ⟨[], [], []⟩)

/-- lambda_handler: the caller-visible response of a daily-restore run. -/
def lambda_handler (env : Env) (event : Event) : Response :=
  (runWithState env event).1

end DailyRestore

namespace MonthlyBackup

/-- Oracle environment of one monthly-backup invocation: whether the
required environment variables and the secret are available, the snapshot
tool's outcome per bucket, the files it produced, and the per-file upload
outcome. -/
structure Env where
  envVarsOk : Bool
  tokenOk : Bool
  backupCmd : String → ToolResult
  listFiles : String → List String
  uploadOk : String → String → Bool

/-- The invocation event: an optional override of the destination key
base (the s3 target path request field). -/
structure Event where
  s3BaseOverride : Option String
deriving DecidableEq

/-- Upload every produced file in order; a ClientError on any upload
re-raises (local file removal is best-effort either way). -/
def uploadAll (env : Env) (bucket : String) : List String → Except Err Unit
  | [] => .ok ()
  | f :: rest =>
    if env.uploadOk bucket f then uploadAll env bucket rest
    else .error (.exc ("Failed to upload " ++ f))

/-- Snapshot one bucket and upload its files: tool timeout raises
TimeoutExpired, non-zero exit raises, and any upload failure raises. -/
def backupOne (env : Env) (bucket : String) : Except Err Unit :=
  match env.backupCmd bucket with
  | .timeout => .error (.timeout ("backup for " ++ bucket))
  | .fail => .error (.exc "Backup failed")
  | .ok => uploadAll env bucket (env.listFiles bucket)

/-- The monthly-backup bucket loop: sequential, aborting at the first
raise. -/
def backupAllBuckets (env : Env) : List String → Except Err Unit
  | [] => .ok ()
  | b :: rest =>
    match backupOne env b with
    | .error e => .error e
    | .ok _ => backupAllBuckets env rest

/-- The structured response: statusCode plus the JSON body fields. -/
structure Response where
  statusCode : Nat
  message : Option String
  buckets : Option (List String)
  error : Option String
deriving DecidableEq

/-- lambda_handler for the monthly backup over the hardcoded bucket
pair. -/
def lambda_handler (env : Env) (_event : Event) : Response :=
  if env.envVarsOk then
    if env.tokenOk then
      match backupAllBuckets env ["asset_bucket", "cloud_bucket"] with
      | .error e => ⟨500, none, none, some e.toMessage⟩
      | .ok _ =>
        ⟨200, some "Backup completed", some ["asset_bucket", "cloud_bucket"], none⟩
    else ⟨500, none, none, some "Failed to retrieve secret"⟩
  else ⟨500, none, none, some "Missing required environment variables"⟩

end MonthlyBackup

namespace MonthlyRestore

/-- Outcome of list_objects_v2 under one bucket's snapshot key base:
a ClientError, a response without Contents, or a list of object keys. -/
inductive ListResult where
  | storageError
  | empty
  | files (fs : List String)
deriving DecidableEq

/-- Oracle environment of one monthly-restore invocation.  tsOk models
datetime.strptime accepting the string in format YYYYMMDDTHHMMSSZ. -/
structure Env where
  envVarsOk : Bool
  tokenOk : Bool
  tsOk : String → Bool
  listObjects : String → ListResult
  downloadOk : String → String → Bool
  restoreCmd : String → ToolResult

/-- The invocation event. -/
structure Event where
  backup_timestamp : Option String
deriving DecidableEq

/-- Download every listed object in order; a ClientError on any download
re-raises. -/
def downloadAll (env : Env) (bucket : String) : List String → Except Err Unit
  | [] => .ok ()
  | f :: rest =>
    if env.downloadOk bucket f then downloadAll env bucket rest
    else .error (.exc ("Failed to list or download files for " ++ bucket))

/-- Restore one bucket: list (ClientError raises), skip when no objects
are found, download each file (ClientError raises), then run the restore
tool (timeout or non-zero exit raises); on success the destination bucket
is recorded. -/
def restoreOne (env : Env) (b : String × String) : Except Err (Option String) :=
  match env.listObjects b.1 with
  | .storageError =>
    .error (.exc ("Failed to list or download files for " ++ b.1))
  | .empty => .ok none
  | .files fs =>
    match downloadAll env b.1 fs with
    | .error e => .error e
    | .ok _ =>
      match env.restoreCmd b.1 with
      | .timeout => .error (.timeout ("restore for " ++ b.1))
      | .fail => .error (.exc ("Restore failed for " ++ b.1))
      | .ok => .ok (some b.2)

/-- The monthly-restore bucket loop: sequential, aborting at the first
raise, collecting the restored destination buckets. -/
def restoreAll (env : Env) : List (String × String) → Except Err (List String)
  | [] => .ok []
  | b :: rest =>
    match restoreOne env b with
    | .error e => .error e
    | .ok o =>
      match restoreAll env rest with
      | .error e => .error e
      | .ok ds => .ok (o.toList ++ ds)

/-- The structured response: statusCode plus the JSON body fields. -/
structure Response where
  statusCode : Nat
  message : Option String
  buckets : Option (List String)
  error : Option String
deriving DecidableEq

/-- The hardcoded (source, destination) bucket pairs of the monthly
restore. -/
def restoreTargets : List (String × String) :=
  [("asset_bucket", "restored_asset_bucket"),
   ("cloud_bucket", "restored_cloud_bucket")]

/-- lambda_handler for the monthly restore. -/
def lambda_handler (env : Env) (event : Event) : Response :=
  if env.envVarsOk then
    match event.backup_timestamp with
    | none => ⟨500, none, none, some "Missing backup_timestamp in event"⟩
    | some t =>
      if env.tsOk t then
        if env.tokenOk then
          match restoreAll env restoreTargets with
          | .error e => ⟨500, none, none, some e.toMessage⟩
          | .ok ds => ⟨200, some "Restoration completed", some ds, none⟩
        else ⟨500, none, none, some "Failed to retrieve secret"⟩
      else ⟨500, none, none, some "Invalid backup_timestamp format"⟩
  else ⟨500, none, none, some "Missing required environment variables"⟩

end MonthlyRestore

/-! ## Path lemmas for the daily-backup bucket loop

Each lemma fixes the oracle outcomes of one control-flow path through
processBucket and computes the exact result, so that the claims can be
settled by case analysis over these paths. -/

namespace DailyBackup

theorem processBucket_skip (env : Env) (st : RunState) (b : ValidBucket)
    (hm : b.measurements = []) : processBucket env st b = .ok st := by
  simp [processBucket, hm]

theorem processBucket_readFault (env : Env) (st : RunState) (b : ValidBucket)
    (hm : b.measurements ≠ []) (hrf : env.readFault b.name = true) :
    processBucket env st b =
      .error (st, .exc ("Failed to retrieve last backup timestamp for " ++ b.name)) := by
  simp [processBucket, get_last_backup_time, hm, hrf]

theorem processBucket_extract_timeout (env : Env) (st : RunState)
    (b : ValidBucket) (hm : b.measurements ≠ [])
    (hrf : env.readFault b.name = false)
    (hex : env.extract b.name = .timeout) :
    processBucket env st b =
      .error ({ st with csvExists := true }, .timeout ("query for " ++ b.name)) := by
  cases hck : ckLookup st.ckpts b.name <;>
    simp [processBucket, get_last_backup_time, hm, hrf, hck, hex]

theorem processBucket_extract_fail (env : Env) (st : RunState)
    (b : ValidBucket) (hm : b.measurements ≠ [])
    (hrf : env.readFault b.name = false)
    (hex : env.extract b.name = .fail) :
    processBucket env st b =
      .error ({ st with csvExists := true },
        .exc ("Query failed for " ++ b.name)) := by
  cases hck : ckLookup st.ckpts b.name <;>
    simp [processBucket, get_last_backup_time, hm, hrf, hck, hex]

theorem processBucket_empty_ok (env : Env) (st : RunState) (b : ValidBucket)
    (hm : b.measurements ≠ []) (hrf : env.readFault b.name = false)
    (hex : env.extract b.name = .ok 0) (hwf : env.writeFault b.name = false) :
    processBucket env st b =
      .ok { st with ckpts := ckSet st.ckpts b.name env.now,
                    backedUp := st.backedUp ++ [b.name],
                    csvExists := !(env.removeCsvOk b.name) } := by
  cases hck : ckLookup st.ckpts b.name <;>
    simp [processBucket, get_last_backup_time, update_last_backup_time,
      hm, hrf, hck, hex, hwf]

theorem processBucket_empty_writeFault (env : Env) (st : RunState)
    (b : ValidBucket) (hm : b.measurements ≠ [])
    (hrf : env.readFault b.name = false)
    (hex : env.extract b.name = .ok 0) (hwf : env.writeFault b.name = true) :
    processBucket env st b =
      .error ({ st with csvExists := !(env.removeCsvOk b.name) },
        .exc ("Failed to update last backup timestamp for " ++ b.name)) := by
  cases hck : ckLookup st.ckpts b.name <;>
    simp [processBucket, get_last_backup_time, update_last_backup_time,
      hm, hrf, hck, hex, hwf]

theorem processBucket_compress_fail (env : Env) (st : RunState)
    (b : ValidBucket) (n : Nat) (hm : b.measurements ≠ [])
    (hrf : env.readFault b.name = false)
    (hex : env.extract b.name = .ok n) (hn : n ≠ 0)
    (hcomp : env.compressOk b.name = false) :
    processBucket env st b =
      .error ({ st with csvExists := true, gzipExists := true },
        .exc ("Compression failed for " ++ b.name)) := by
  cases hck : ckLookup st.ckpts b.name <;>
    simp [processBucket, get_last_backup_time, hm, hrf, hck, hex, hn, hcomp]

theorem processBucket_upload_fail (env : Env) (st : RunState)
    (b : ValidBucket) (n : Nat) (hm : b.measurements ≠ [])
    (hrf : env.readFault b.name = false)
    (hex : env.extract b.name = .ok n) (hn : n ≠ 0)
    (hcomp : env.compressOk b.name = true)
    (hup : env.uploadOk b.name = false) :
    processBucket env st b =
      .error ({ st with csvExists := !(env.removeCsvOk b.name),
                        gzipExists := !(env.removeGzipOk b.name) },
        .exc ("Failed to upload for " ++ b.name)) := by
  cases hck : ckLookup st.ckpts b.name <;>
    simp [processBucket, get_last_backup_time, hm, hrf, hck, hex, hn, hcomp, hup]

theorem processBucket_upload_writeFault (env : Env) (st : RunState)
    (b : ValidBucket) (n : Nat) (hm : b.measurements ≠ [])
    (hrf : env.readFault b.name = false)
    (hex : env.extract b.name = .ok n) (hn : n ≠ 0)
    (hcomp : env.compressOk b.name = true)
    (hup : env.uploadOk b.name = true)
    (hwf : env.writeFault b.name = true) :
    processBucket env st b =
      .error ({ st with uploads := st.uploads ++ [s3Key env b.name],
                        csvExists := !(env.removeCsvOk b.name),
                        gzipExists := !(env.removeGzipOk b.name) },
        .exc ("Failed to update last backup timestamp for " ++ b.name)) := by
  cases hck : ckLookup st.ckpts b.name <;>
    simp [processBucket, get_last_backup_time, update_last_backup_time,
      hm, hrf, hck, hex, hn, hcomp, hup, hwf]

theorem processBucket_upload_ok (env : Env) (st : RunState)
    (b : ValidBucket) (n : Nat) (hm : b.measurements ≠ [])
    (hrf : env.readFault b.name = false)
    (hex : env.extract b.name = .ok n) (hn : n ≠ 0)
    (hcomp : env.compressOk b.name = true)
    (hup : env.uploadOk b.name = true)
    (hwf : env.writeFault b.name = false) :
    processBucket env st b =
      .ok { st with ckpts := ckSet st.ckpts b.name env.now,
                    uploads := st.uploads ++ [s3Key env b.name],
                    backedUp := st.backedUp ++ [b.name],
                    csvExists := !(env.removeCsvOk b.name),
                    gzipExists := !(env.removeGzipOk b.name) } := by
  cases hck : ckLookup st.ckpts b.name <;>
    simp [processBucket, get_last_backup_time, update_last_backup_time,
      hm, hrf, hck, hex, hn, hcomp, hup, hwf]

theorem runBuckets_append (env : Env) (st : RunState)
    (l1 l2 : List ValidBucket) :
    runBuckets env st (l1 ++ l2) =
      match runBuckets env st l1 with
      | .error e => .error e
      | .ok st' => runBuckets env st' l2 := by
  induction l1 generalizing st with
  | nil => simp [runBuckets]
  | cons b rest ih =>
    simp only [List.cons_append, runBuckets]
    cases processBucket env st b with
    | error e => rfl
    | ok st' => exact ih st'

theorem ckLookup_ckSet (m : List (String × Int)) (k : String) (v : Int) :
    ckLookup (ckSet m k v) k = some v := by
  induction m with
  | nil => simp [ckSet, ckLookup]
  | cons p rest ih =>
    by_cases h : p.1 = k
    · simp [ckSet, ckLookup, h]
    · simpa [ckSet, ckLookup, h] using ih

end DailyBackup

namespace DailyRestore

/-- Whether one iteration of the restore loop ends with the bucket in the
restored list (every other combination of oracle outcomes puts it in the
failed list). -/
def bucketSucceeds (env : Env) (b : String × String) : Bool :=
  match env.download b.1 with
  | .ok => env.decompressOk b.1 && (env.writeTool b.1 b.2 == .ok)
  | .notFound => false
  | .clientError => false

theorem restoreBucket_cases (env : Env) (st : RunState) (b : String × String) :
    restoreBucket env st b =
      if bucketSucceeds env b then
        { st with processed := st.processed ++ [b],
                  restored := st.restored ++ [b.1] }
      else
        { st with processed := st.processed ++ [b],
                  failed := st.failed ++ [b.1] } := by
  unfold restoreBucket bucketSucceeds
  cases hd : env.download b.1 <;> simp
  cases hdc : env.decompressOk b.1 <;> simp
  cases hw : env.writeTool b.1 b.2 <;> simp

end DailyRestore

/-! ## Concrete sample environments, used to instantiate the theorems -/

namespace DailyBackup

/-- A daily-backup environment in which every oracle succeeds. -/
def sampleEnv : Env :=
  { now := 100, dateStr := "2024-01-01", envVarsOk := true, tokenOk := true,
    envBucketConfig := none,
    readFault := fun _ => false, writeFault := fun _ => false,
    extract := fun _ => .ok 5, compressOk := fun _ => true,
    uploadOk := fun _ => true, removeCsvOk := fun _ => true,
    removeGzipOk := fun _ => true }

end DailyBackup

namespace DailyRestore

/-- A daily-restore environment in which every oracle succeeds. -/
def sampleEnv : Env :=
  { envVarsOk := true, tokenOk := true, dateOk := fun _ => true,
    download := fun _ => .ok, decompressOk := fun _ => true,
    writeTool := fun _ _ => .ok }

end DailyRestore

/-! ## Theorems for the claims -/

section Claims

open DailyBackup in
/-- Claim C1: for every bucket processed by the daily incremental backup,
the stored checkpoint for that bucket is advanced to the run's current
time only after extraction for the bucket has fully completed — the
empty-output case or a successful compress-and-upload — and is never
written when extraction, compression, or the upload fails; every failing
exit of the bucket's unit of work leaves the stored checkpoints
unchanged. -/
theorem C1_checkpoint_only_after_extraction (env : DailyBackup.Env)
    (st : DailyBackup.RunState) (b : DailyBackup.ValidBucket) :
    (∀ st' e, processBucket env st b = .error (st', e) → st'.ckpts = st.ckpts) ∧
    (∀ st', processBucket env st b = .ok st' →
      st'.ckpts = st.ckpts ∨
      ∃ n, env.extract b.name = .ok n ∧ env.writeFault b.name = false ∧
        (n = 0 ∨ (n ≠ 0 ∧ env.compressOk b.name = true ∧
          env.uploadOk b.name = true)) ∧
        st'.ckpts = ckSet st.ckpts b.name env.now) := by
  by_cases hm : b.measurements = []
  · rw [processBucket_skip env st b hm]
    constructor
    · intro st' e h; cases h
    · intro st' h
      cases h
      exact Or.inl rfl
  by_cases hrf : env.readFault b.name = true
  · rw [processBucket_readFault env st b hm hrf]
    constructor
    · intro st' e h
      cases h
      rfl
    · intro st' h; cases h
  rw [Bool.not_eq_true] at hrf
  cases hex : env.extract b.name with
  | timeout =>
    rw [processBucket_extract_timeout env st b hm hrf hex]
    constructor
    · intro st' e h; cases h; rfl
    · intro st' h; cases h
  | fail =>
    rw [processBucket_extract_fail env st b hm hrf hex]
    constructor
    · intro st' e h; cases h; rfl
    · intro st' h; cases h
  | ok n =>
    by_cases hn : n = 0
    · subst hn
      by_cases hwf : env.writeFault b.name = true
      · rw [processBucket_empty_writeFault env st b hm hrf hex hwf]
        constructor
        · intro st' e h; cases h; rfl
        · intro st' h; cases h
      · rw [Bool.not_eq_true] at hwf
        rw [processBucket_empty_ok env st b hm hrf hex hwf]
        constructor
        · intro st' e h; cases h
        · intro st' h
          cases h
          exact Or.inr ⟨0, rfl, hwf, Or.inl rfl, rfl⟩
    · by_cases hcomp : env.compressOk b.name = true
      · by_cases hup : env.uploadOk b.name = true
        · by_cases hwf : env.writeFault b.name = true
          · rw [processBucket_upload_writeFault env st b n hm hrf hex hn hcomp hup hwf]
            constructor
            · intro st' e h; cases h; rfl
            · intro st' h; cases h
          · rw [Bool.not_eq_true] at hwf
            rw [processBucket_upload_ok env st b n hm hrf hex hn hcomp hup hwf]
            constructor
            · intro st' e h; cases h
            · intro st' h
              cases h
              exact Or.inr ⟨n, rfl, hwf, Or.inr ⟨hn, hcomp, hup⟩, rfl⟩
        · rw [Bool.not_eq_true] at hup
          rw [processBucket_upload_fail env st b n hm hrf hex hn hcomp hup]
          constructor
          · intro st' e h; cases h; rfl
          · intro st' h; cases h
      · rw [Bool.not_eq_true] at hcomp
        rw [processBucket_compress_fail env st b n hm hrf hex hn hcomp]
        constructor
        · intro st' e h; cases h; rfl
        · intro st' h; cases h

open DailyBackup in
/-- Claim C2: in the daily backup, a non-zero exit of the extraction tool
for bucket N aborts the run before any later bucket is touched (the
result does not depend on the buckets after N), the run returns a 500
response, and the checkpoints advanced for buckets 1..N-1 keep exactly
the values they had after bucket N-1 (no rollback). -/
theorem C2_backup_aborts_on_extract_failure (env : DailyBackup.Env)
    (event : DailyBackup.Event) (ck0 : List (String × Int))
    (pre post : List DailyBackup.ValidBucket) (bN : DailyBackup.ValidBucket)
    (stP : DailyBackup.RunState)
    (hvars : env.envVarsOk = true) (htok : env.tokenOk = true)
    (hval : validateBuckets (resolveBuckets env event) = .ok (pre ++ bN :: post))
    (hpre : runBuckets env (initState ck0) pre = .ok stP)
    (hm : bN.measurements ≠ []) (hrf : env.readFault bN.name = false)
    (hex : env.extract bN.name = .fail) :
    (∀ post' : List DailyBackup.ValidBucket,
      runBuckets env (initState ck0) (pre ++ bN :: post') =
        .error ({ stP with csvExists := true },
          .exc ("Query failed for " ++ bN.name))) ∧
    (runWithState env event ck0).2.ckpts = stP.ckpts ∧
    (lambda_handler env event ck0).statusCode = 500 := by
  have hrun : ∀ post' : List DailyBackup.ValidBucket,
      runBuckets env (initState ck0) (pre ++ bN :: post') =
        .error ({ stP with csvExists := true },
          .exc ("Query failed for " ++ bN.name)) := by
    intro post'
    rw [runBuckets_append, hpre]
    show runBuckets env stP (bN :: post') = _
    simp [runBuckets, processBucket_extract_fail env stP bN hm hrf hex]
  refine ⟨hrun, ?_, ?_⟩
  · simp [runWithState, hvars, hval, htok, hrun post]
  · simp [lambda_handler, runWithState, hvars, hval, htok, hrun post]

open DailyBackup in
/-- Claim C7: when a bucket has no stored checkpoint object, the
checkpoint read returns exactly now minus 24 hours (86400 seconds) as a
policy default rather than an error; any other storage error on the read
raises, and that failure is fatal: the bucket's unit of work fails with
the run state unchanged and the bucket loop aborts. -/
theorem C7_checkpoint_read_default_and_fatal (env : DailyBackup.Env)
    (ckpts : List (String × Int)) (bucket : String) :
    (env.readFault bucket = false → ckLookup ckpts bucket = none →
      get_last_backup_time env ckpts bucket = .ok (env.now - 86400)) ∧
    (env.readFault bucket = true →
      get_last_backup_time env ckpts bucket =
        .error (.exc ("Failed to retrieve last backup timestamp for " ++ bucket)) ∧
      ∀ (st : DailyBackup.RunState) (b : DailyBackup.ValidBucket)
        (rest : List DailyBackup.ValidBucket),
        b.name = bucket → b.measurements ≠ [] →
        runBuckets env st (b :: rest) =
          .error (st,
            .exc ("Failed to retrieve last backup timestamp for " ++ bucket))) := by
  constructor
  · intro hrf hck
    simp [get_last_backup_time, hrf, hck]
  · intro hrf
    constructor
    · simp [get_last_backup_time, hrf]
    · intro st b rest hname hm
      subst hname
      simp [runBuckets, processBucket_readFault env st b hm hrf]

open DailyBackup in
/-- Claim C8: a bucket configuration whose measurements list is empty
after trimming is skipped by the daily backup: its unit of work succeeds
with the run state untouched (no checkpoint read or write, no upload, not
reported as succeeded) for every environment, and the loop continues with
the remaining buckets. -/
theorem C8_empty_measurements_skipped (env : DailyBackup.Env)
    (st : DailyBackup.RunState) (b : DailyBackup.ValidBucket)
    (rest : List DailyBackup.ValidBucket) (hm : b.measurements = []) :
    processBucket env st b = .ok st ∧
    runBuckets env st (b :: rest) = runBuckets env st rest := by
  refine ⟨processBucket_skip env st b hm, ?_⟩
  simp [runBuckets, processBucket_skip env st b hm]

open DailyBackup in
/-- Counterexample to claim C5: when the extraction tool exits non-zero
the bucket's unit of work ends (run aborted, 500 response) with the
temporary CSV file still present, even though every file-removal oracle
succeeds — the claimed cleanup on every exit path does not hold. -/
theorem C5_counterexample :
    (runWithState { sampleEnv with extract := fun _ => .fail }
        ⟨[⟨true, "b1", ["m1"]⟩]⟩ []).2.csvExists = true ∧
    (runWithState { sampleEnv with extract := fun _ => .fail }
        ⟨[⟨true, "b1", ["m1"]⟩]⟩ []).1.statusCode = 500 := by
  constructor <;> rfl

open DailyBackup in
/-- Claim C5 as amended: temporary-file cleanup holds on the exit paths
that attempt it — whenever the unit of work returns successfully (empty
output or uploaded), and on every failing exit that occurs at or after
the checkpoint write or the upload (upload failure, checkpoint-write
failure) — i.e. on every path on which extraction succeeded and, for
non-empty output, compression succeeded.  On extraction failure, on
extraction timeout and on compression failure the temporary CSV file is
not removed (see the counterexample). -/
theorem C5_amended_cleanup (env : DailyBackup.Env) (st : DailyBackup.RunState)
    (b : DailyBackup.ValidBucket)
    (hcsv0 : st.csvExists = false) (hgz0 : st.gzipExists = false)
    (hrm : env.removeCsvOk b.name = true)
    (hrmg : env.removeGzipOk b.name = true) :
    (∀ st', processBucket env st b = .ok st' →
      st'.csvExists = false ∧ st'.gzipExists = false) ∧
    (∀ st' e n, processBucket env st b = .error (st', e) →
      env.extract b.name = .ok n → (n = 0 ∨ env.compressOk b.name = true) →
      st'.csvExists = false ∧ st'.gzipExists = false) := by
  by_cases hm : b.measurements = []
  · rw [processBucket_skip env st b hm]
    constructor
    · intro st' h; cases h; exact ⟨hcsv0, hgz0⟩
    · intro st' e n h; cases h
  by_cases hrf : env.readFault b.name = true
  · rw [processBucket_readFault env st b hm hrf]
    constructor
    · intro st' h; cases h
    · intro st' e n h _ _; cases h; exact ⟨hcsv0, hgz0⟩
  rw [Bool.not_eq_true] at hrf
  cases hex : env.extract b.name with
  | timeout =>
    rw [processBucket_extract_timeout env st b hm hrf hex]
    constructor
    · intro st' h; cases h
    · intro st' e n h hex' _; cases hex'
  | fail =>
    rw [processBucket_extract_fail env st b hm hrf hex]
    constructor
    · intro st' h; cases h
    · intro st' e n h hex' _; cases hex'
  | ok m =>
    by_cases hn : m = 0
    · subst hn
      by_cases hwf : env.writeFault b.name = true
      · rw [processBucket_empty_writeFault env st b hm hrf hex hwf]
        constructor
        · intro st' h; cases h
        · intro st' e n h _ _; cases h; simp [hrm, hgz0]
      · rw [Bool.not_eq_true] at hwf
        rw [processBucket_empty_ok env st b hm hrf hex hwf]
        constructor
        · intro st' h; cases h; simp [hrm, hgz0]
        · intro st' e n h; cases h
    · by_cases hcomp : env.compressOk b.name = true
      · by_cases hup : env.uploadOk b.name = true
        · by_cases hwf : env.writeFault b.name = true
          · rw [processBucket_upload_writeFault env st b m hm hrf hex hn hcomp hup hwf]
            constructor
            · intro st' h; cases h
            · intro st' e n h _ _; cases h; simp [hrm, hrmg]
          · rw [Bool.not_eq_true] at hwf
            rw [processBucket_upload_ok env st b m hm hrf hex hn hcomp hup hwf]
            constructor
            · intro st' h; cases h; simp [hrm, hrmg]
            · intro st' e n h; cases h
        · rw [Bool.not_eq_true] at hup
          rw [processBucket_upload_fail env st b m hm hrf hex hn hcomp hup]
          constructor
          · intro st' h; cases h
          · intro st' e n h _ _; cases h; simp [hrm, hrmg]
      · rw [Bool.not_eq_true] at hcomp
        rw [processBucket_compress_fail env st b m hm hrf hex hn hcomp]
        constructor
        · intro st' h; cases h
        · intro st' e n h hex' hor
          cases h
          cases hex'
          rcases hor with h0 | hc
          · exact absurd h0 hn
          · rw [hcomp] at hc; cases hc

open DailyBackup in
/-- Claim C6: a bucket whose extraction produces zero bytes is treated as
success: nothing is uploaded for it, its checkpoint is set to the run's
current time, it is reported in the succeeded set, the temporary file is
discarded, and the run returns 200. -/
theorem C6_empty_output_is_success (env : DailyBackup.Env)
    (event : DailyBackup.Event) (ck0 : List (String × Int))
    (name : String) (ms : List String)
    (hvars : env.envVarsOk = true) (htok : env.tokenOk = true)
    (hev : event.buckets = [⟨true, name, ms⟩])
    (hnm : pyStrip name = name) (hms : trimMeasurements ms = ms)
    (hms0 : ms ≠ []) (hrf : env.readFault name = false)
    (_hck : ckLookup ck0 name = none)
    (hex : env.extract name = .ok 0) (hwf : env.writeFault name = false)
    (hrm : env.removeCsvOk name = true) :
    (lambda_handler env event ck0).statusCode = 200 ∧
    (lambda_handler env event ck0).buckets = some [name] ∧
    (runWithState env event ck0).2.uploads = [] ∧
    ckLookup (runWithState env event ck0).2.ckpts name = some env.now ∧
    (runWithState env event ck0).2.csvExists = false := by
  have hres : resolveBuckets env event = [⟨true, name, ms⟩] := by
    simp [resolveBuckets, hev]
  have hvalid : validateBuckets (resolveBuckets env event) =
      .ok [⟨name, ms⟩] := by
    simp [hres, validateBuckets, hnm, hms]
  have hstep := processBucket_empty_ok env (initState ck0) ⟨name, ms⟩ hms0 hrf hex hwf
  have hrun : runBuckets env (initState ck0) [⟨name, ms⟩] =
      .ok { initState ck0 with
            ckpts := ckSet ck0 name env.now,
            backedUp := [name],
            csvExists := !(env.removeCsvOk name) } := by
    simp only [runBuckets]
    rw [hstep]
    simp [initState]
  have hfinal : runWithState env event ck0 =
      (⟨200, some "Incremental backup completed", some [name], none⟩,
       ⟨ckSet ck0 name env.now, [], [name], !(env.removeCsvOk name), false⟩) := by
    simp only [runWithState, hvars, hvalid, htok, if_true, hrun]
    simp [initState]
  refine ⟨?_, ?_, ?_, ?_, ?_⟩ <;>
    simp [lambda_handler, hfinal, ckLookup_ckSet, hrm]

open DailyBackup in
/-- Counterexample to claim C3: a daily-backup run whose single bucket
has a measurements list that trims to empty completes its bucket
iteration with zero succeeded buckets, yet returns statusCode 200 — so
the success code can be returned when zero buckets succeeded. -/
theorem C3_counterexample :
    (DailyBackup.lambda_handler sampleEnv ⟨[⟨true, "b1", [""]⟩]⟩ []).statusCode
        = 200 ∧
    (DailyBackup.lambda_handler sampleEnv ⟨[⟨true, "b1", [""]⟩]⟩ []).buckets
        = some [] := by
  constructor <;> rfl

/-- Claim C3 as amended: the daily restore follows the claimed rule — a
run over valid inputs returns 200 exactly when at least one bucket was
restored and 500 exactly when every bucket failed; the daily backup,
however, returns 200 whenever its bucket iteration completes, reporting
exactly the succeeded buckets, including 200 with zero succeeded buckets
when every bucket was skipped. -/
theorem C3_amended_status_aggregation :
    (∀ (env : DailyBackup.Env) (event : DailyBackup.Event)
      (ck0 : List (String × Int)) (bs : List DailyBackup.ValidBucket)
      (stF : DailyBackup.RunState),
      env.envVarsOk = true → env.tokenOk = true →
      DailyBackup.validateBuckets (DailyBackup.resolveBuckets env event) = .ok bs →
      DailyBackup.runBuckets env (DailyBackup.initState ck0) bs = .ok stF →
      (DailyBackup.lambda_handler env event ck0).statusCode = 200 ∧
      (DailyBackup.lambda_handler env event ck0).buckets = some stF.backedUp) ∧
    (∀ (env : DailyRestore.Env) (ev : DailyRestore.Event) (d : String),
      env.envVarsOk = true → ev.backup_date = some d → env.dateOk d = true →
      env.tokenOk = true →
      (((DailyRestore.lambda_handler env ev).statusCode = 200 ↔
        (DailyRestore.runWithState env ev).2.restored ≠ []) ∧
       ((DailyRestore.lambda_handler env ev).statusCode = 500 ↔
        (DailyRestore.runWithState env ev).2.restored = []))) := by
  constructor
  · intro env event ck0 bs stF hvars htok hval hrun
    constructor <;>
      simp [DailyBackup.lambda_handler, DailyBackup.runWithState, hvars, hval,
        htok, hrun]
  · intro env ev d hvars hdate hdok htok
    cases hA : DailyRestore.bucketSucceeds env
        ("asset_bucket", "restored_asset_bucket") <;>
    cases hC : DailyRestore.bucketSucceeds env
        ("cloud_bucket", "restored_cloud_bucket") <;>
      simp [DailyRestore.lambda_handler, DailyRestore.runWithState, hvars,
        hdate, hdok, htok, DailyRestore.restoreTargets,
        DailyRestore.restoreBucket_cases, hA, hC]

open DailyRestore in
/-- Claim C4: per-bucket failures in the daily restore are isolated.
When the first bucket's artifact restores successfully and the second's
does not exist (or the other way round), the failing bucket is recorded
in failed_buckets, the other is restored, processing is not aborted, and
the overall status is 200. -/
theorem C4_restore_per_bucket_isolation :
    (∀ (env : DailyRestore.Env) (ev : DailyRestore.Event) (d : String),
      env.envVarsOk = true → ev.backup_date = some d → env.dateOk d = true →
      env.tokenOk = true →
      env.download "asset_bucket" = .ok →
      env.decompressOk "asset_bucket" = true →
      env.writeTool "asset_bucket" "restored_asset_bucket" = .ok →
      env.download "cloud_bucket" = .notFound →
      (DailyRestore.lambda_handler env ev).restored_buckets = some ["asset_bucket"] ∧
      (DailyRestore.lambda_handler env ev).failed_buckets = some ["cloud_bucket"] ∧
      (DailyRestore.lambda_handler env ev).statusCode = 200) ∧
    (∀ (env : DailyRestore.Env) (ev : DailyRestore.Event) (d : String),
      env.envVarsOk = true → ev.backup_date = some d → env.dateOk d = true →
      env.tokenOk = true →
      env.download "asset_bucket" = .notFound →
      env.download "cloud_bucket" = .ok →
      env.decompressOk "cloud_bucket" = true →
      env.writeTool "cloud_bucket" "restored_cloud_bucket" = .ok →
      (DailyRestore.lambda_handler env ev).restored_buckets = some ["cloud_bucket"] ∧
      (DailyRestore.lambda_handler env ev).failed_buckets = some ["asset_bucket"] ∧
      (DailyRestore.lambda_handler env ev).statusCode = 200) := by
  constructor
  · intro env ev d hvars hdate hdok htok hdA hdcA hwA hdC
    have hA : bucketSucceeds env ("asset_bucket", "restored_asset_bucket") = true := by
      simp [bucketSucceeds, hdA, hdcA, hwA]
    have hC : bucketSucceeds env ("cloud_bucket", "restored_cloud_bucket") = false := by
      simp [bucketSucceeds, hdC]
    refine ⟨?_, ?_, ?_⟩ <;>
      simp [lambda_handler, runWithState, hvars, hdate, hdok, htok,
        restoreTargets, restoreBucket_cases, hA, hC]
  · intro env ev d hvars hdate hdok htok hdA hdC hdcC hwC
    have hA : bucketSucceeds env ("asset_bucket", "restored_asset_bucket") = false := by
      simp [bucketSucceeds, hdA]
    have hC : bucketSucceeds env ("cloud_bucket", "restored_cloud_bucket") = true := by
      simp [bucketSucceeds, hdC, hdcC, hwC]
    refine ⟨?_, ?_, ?_⟩ <;>
      simp [lambda_handler, runWithState, hvars, hdate, hdok, htok,
        restoreTargets, restoreBucket_cases, hA, hC]

open DailyRestore in
/-- Claim C10: a daily-restore run over a valid request processes exactly
the hardcoded pair asset_bucket then cloud_bucket, restoring into
restored_asset_bucket and restored_cloud_bucket respectively; any bucket
list supplied in the request is ignored (the run's outcome does not
depend on it), and each destination bucket name differs from its source
bucket name. -/
theorem C10_restore_hardcoded_targets (env : DailyRestore.Env)
    (ev : DailyRestore.Event) (d : String)
    (hvars : env.envVarsOk = true) (hdate : ev.backup_date = some d)
    (hdok : env.dateOk d = true) (htok : env.tokenOk = true) :
    (DailyRestore.runWithState env ev).2.processed =
      [("asset_bucket", "restored_asset_bucket"),
       ("cloud_bucket", "restored_cloud_bucket")] ∧
    (∀ bs bs' : List DailyBackup.RawBucket,
      DailyRestore.runWithState env ⟨some d, bs⟩ =
        DailyRestore.runWithState env ⟨some d, bs'⟩) ∧
    (∀ p ∈ (DailyRestore.runWithState env ev).2.processed, p.1 ≠ p.2) := by
  have hproc : (DailyRestore.runWithState env ev).2.processed =
      [("asset_bucket", "restored_asset_bucket"),
       ("cloud_bucket", "restored_cloud_bucket")] := by
    cases hA : bucketSucceeds env ("asset_bucket", "restored_asset_bucket") <;>
    cases hC : bucketSucceeds env ("cloud_bucket", "restored_cloud_bucket") <;>
      simp [runWithState, hvars, hdate, hdok, htok, restoreTargets,
        restoreBucket_cases, hA, hC]
  refine ⟨hproc, ?_, ?_⟩
  · intro bs bs'
    rfl
  · intro p hp
    rw [hproc] at hp
    simp at hp
    rcases hp with h | h <;> subst h <;> decide

/-- Counterexample to claim C9: in the daily restore, a load-tool timeout
(an exception raised during processing) for one bucket is caught by the
per-bucket handler and recorded as that bucket's failure; with the other
bucket succeeding, the run returns statusCode 200 — the exception is not
mapped to a 500 response. -/
theorem C9_counterexample :
    (DailyRestore.lambda_handler
        { DailyRestore.sampleEnv with
          writeTool := fun b _ => if b = "asset_bucket" then .timeout else .ok }
        ⟨some "2024-01-01", []⟩).statusCode = 200 ∧
    (DailyRestore.lambda_handler
        { DailyRestore.sampleEnv with
          writeTool := fun b _ => if b = "asset_bucket" then .timeout else .ok }
        ⟨some "2024-01-01", []⟩).failed_buckets = some ["asset_bucket"] := by
  constructor <;> rfl

/-- Claim C9 as amended: each of the four handlers is total at its public
interface — for every input it returns a structured response whose
statusCode is 200 or 500, never propagating an exception, and every 500
response carries an error message; every exception that unwinds to a
handler's top-level except block is mapped to a 500 response carrying the
exception's message (shown for the bucket loops of the daily backup and
both monthly handlers).  In the daily restore, however, an exception
inside one bucket's unit of work — including a load-tool timeout — is
caught by the per-bucket handler and recorded as that bucket's failure
instead of being mapped to a 500 response (see the counterexample). -/
theorem C9_amended_handlers_total :
    (∀ (env : DailyBackup.Env) (event : DailyBackup.Event)
      (ck0 : List (String × Int)),
      ((DailyBackup.lambda_handler env event ck0).statusCode = 200 ∨
       (DailyBackup.lambda_handler env event ck0).statusCode = 500) ∧
      ((DailyBackup.lambda_handler env event ck0).statusCode = 500 →
       (DailyBackup.lambda_handler env event ck0).error ≠ none)) ∧
    (∀ (env : DailyRestore.Env) (event : DailyRestore.Event),
      ((DailyRestore.lambda_handler env event).statusCode = 200 ∨
       (DailyRestore.lambda_handler env event).statusCode = 500) ∧
      ((DailyRestore.lambda_handler env event).statusCode = 500 →
       (DailyRestore.lambda_handler env event).error ≠ none)) ∧
    (∀ (env : MonthlyBackup.Env) (event : MonthlyBackup.Event),
      ((MonthlyBackup.lambda_handler env event).statusCode = 200 ∨
       (MonthlyBackup.lambda_handler env event).statusCode = 500) ∧
      ((MonthlyBackup.lambda_handler env event).statusCode = 500 →
       (MonthlyBackup.lambda_handler env event).error ≠ none)) ∧
    (∀ (env : MonthlyRestore.Env) (event : MonthlyRestore.Event),
      ((MonthlyRestore.lambda_handler env event).statusCode = 200 ∨
       (MonthlyRestore.lambda_handler env event).statusCode = 500) ∧
      ((MonthlyRestore.lambda_handler env event).statusCode = 500 →
       (MonthlyRestore.lambda_handler env event).error ≠ none)) ∧
    (∀ (env : DailyBackup.Env) (event : DailyBackup.Event)
      (ck0 : List (String × Int)) (bs : List DailyBackup.ValidBucket)
      (st : DailyBackup.RunState) (e : Err),
      env.envVarsOk = true → env.tokenOk = true →
      DailyBackup.validateBuckets (DailyBackup.resolveBuckets env event) = .ok bs →
      DailyBackup.runBuckets env (DailyBackup.initState ck0) bs = .error (st, e) →
      DailyBackup.lambda_handler env event ck0 =
        ⟨500, none, none, some e.toMessage⟩) ∧
    (∀ (env : MonthlyBackup.Env) (event : MonthlyBackup.Event) (e : Err),
      env.envVarsOk = true → env.tokenOk = true →
      MonthlyBackup.backupAllBuckets env ["asset_bucket", "cloud_bucket"] =
        .error e →
      MonthlyBackup.lambda_handler env event =
        ⟨500, none, none, some e.toMessage⟩) ∧
    (∀ (env : MonthlyRestore.Env) (event : MonthlyRestore.Event)
      (t : String) (e : Err),
      env.envVarsOk = true → event.backup_timestamp = some t →
      env.tsOk t = true → env.tokenOk = true →
      MonthlyRestore.restoreAll env MonthlyRestore.restoreTargets = .error e →
      MonthlyRestore.lambda_handler env event =
        ⟨500, none, none, some e.toMessage⟩) ∧
    (∀ (env : DailyRestore.Env) (st : DailyRestore.RunState)
      (b : String × String),
      DailyRestore.bucketSucceeds env b = false →
      DailyRestore.restoreBucket env st b =
        { st with
          processed := st.processed ++ [b],
          failed := st.failed ++ [b.1] }) := by
  refine ⟨?_, ?_, ?_, ?_, ?_, ?_, ?_, ?_⟩
  · intro env event ck0
    unfold DailyBackup.lambda_handler DailyBackup.runWithState
    repeat' split
    all_goals simp
  · intro env event
    cases hvars : env.envVarsOk
    · simp [DailyRestore.lambda_handler, DailyRestore.runWithState, hvars]
    · cases hdate : event.backup_date with
      | none =>
        simp [DailyRestore.lambda_handler, DailyRestore.runWithState, hvars,
          hdate]
      | some d =>
        cases hdok : env.dateOk d
        · simp [DailyRestore.lambda_handler, DailyRestore.runWithState, hvars,
            hdate, hdok]
        · cases htok : env.tokenOk
          · simp [DailyRestore.lambda_handler, DailyRestore.runWithState,
              hvars, hdate, hdok, htok]
          · cases hA : DailyRestore.bucketSucceeds env
                ("asset_bucket", "restored_asset_bucket") <;>
            cases hC : DailyRestore.bucketSucceeds env
                ("cloud_bucket", "restored_cloud_bucket") <;>
              simp [DailyRestore.lambda_handler, DailyRestore.runWithState,
                hvars, hdate, hdok, htok, DailyRestore.restoreTargets,
                DailyRestore.restoreBucket_cases, hA, hC]
  · intro env event
    unfold MonthlyBackup.lambda_handler
    repeat' split
    all_goals simp
  · intro env event
    unfold MonthlyRestore.lambda_handler
    repeat' split
    all_goals simp
  · intro env event ck0 bs st e hvars htok hval hrun
    simp [DailyBackup.lambda_handler, DailyBackup.runWithState, hvars, hval,
      htok, hrun]
  · intro env event e hvars htok herr
    simp [MonthlyBackup.lambda_handler, hvars, htok, herr]
  · intro env event t e hvars hts htsok htok herr
    simp [MonthlyRestore.lambda_handler, hvars, hts, htsok, htok, herr]
  · intro env st b h
    rw [DailyRestore.restoreBucket_cases]
    simp [h]

/-! ## Witnesses: each theorem above with hypotheses, instantiated at a
concrete input with every hypothesis discharged by evaluation. -/

open DailyBackup in
/-- Witness for C1: a concrete failing extraction leaves the stored
checkpoints unchanged. -/
theorem C1_witness :
    ((⟨[], [], [], true, false⟩ : DailyBackup.RunState)).ckpts =
      (DailyBackup.initState []).ckpts :=
  (C1_checkpoint_only_after_extraction
      { sampleEnv with extract := fun _ => .fail }
      (initState []) ⟨"b1", ["m1"]⟩).1
    ⟨[], [], [], true, false⟩
    (.exc ("Query failed for " ++ "b1"))
    (by rfl)

open DailyBackup in
/-- Witness for C2: with three configured buckets and the second one's
extraction failing, the run keeps bucket one's advanced checkpoint and
returns 500. -/
theorem C2_witness :
    (runWithState
        { sampleEnv with
          extract := fun n => if n = "b2" then .fail else .ok 0 }
        ⟨[⟨true, "b1", ["m1"]⟩, ⟨true, "b2", ["m2"]⟩, ⟨true, "b3", ["m3"]⟩]⟩
        []).2.ckpts =
      (⟨[("b1", 100)], [], ["b1"], false, false⟩ : DailyBackup.RunState).ckpts ∧
    (DailyBackup.lambda_handler
        { sampleEnv with
          extract := fun n => if n = "b2" then .fail else .ok 0 }
        ⟨[⟨true, "b1", ["m1"]⟩, ⟨true, "b2", ["m2"]⟩, ⟨true, "b3", ["m3"]⟩]⟩
        []).statusCode = 500 :=
  ⟨(C2_backup_aborts_on_extract_failure
      { sampleEnv with extract := fun n => if n = "b2" then .fail else .ok 0 }
      ⟨[⟨true, "b1", ["m1"]⟩, ⟨true, "b2", ["m2"]⟩, ⟨true, "b3", ["m3"]⟩]⟩
      [] [⟨"b1", ["m1"]⟩] [⟨"b3", ["m3"]⟩] ⟨"b2", ["m2"]⟩
      ⟨[("b1", 100)], [], ["b1"], false, false⟩
      rfl rfl (by rfl) (by rfl) (by decide) rfl rfl).2.1,
   (C2_backup_aborts_on_extract_failure
      { sampleEnv with extract := fun n => if n = "b2" then .fail else .ok 0 }
      ⟨[⟨true, "b1", ["m1"]⟩, ⟨true, "b2", ["m2"]⟩, ⟨true, "b3", ["m3"]⟩]⟩
      [] [⟨"b1", ["m1"]⟩] [⟨"b3", ["m3"]⟩] ⟨"b2", ["m2"]⟩
      ⟨[("b1", 100)], [], ["b1"], false, false⟩
      rfl rfl (by rfl) (by rfl) (by decide) rfl rfl).2.2⟩

open DailyRestore in
/-- Witness for the amended C3: on a concrete all-success restore run the
status is 200 exactly because the restored list is non-empty. -/
theorem C3_amended_witness :
    ((DailyRestore.lambda_handler DailyRestore.sampleEnv
        ⟨some "2024-01-01", []⟩).statusCode = 200 ↔
      (DailyRestore.runWithState DailyRestore.sampleEnv
        ⟨some "2024-01-01", []⟩).2.restored ≠ []) ∧
    ((DailyRestore.lambda_handler DailyRestore.sampleEnv
        ⟨some "2024-01-01", []⟩).statusCode = 500 ↔
      (DailyRestore.runWithState DailyRestore.sampleEnv
        ⟨some "2024-01-01", []⟩).2.restored = []) :=
  C3_amended_status_aggregation.2 DailyRestore.sampleEnv
    ⟨some "2024-01-01", []⟩ "2024-01-01" rfl rfl rfl rfl

open DailyRestore in
/-- Witness for C4: with asset_bucket restoring and cloud_bucket's
artifact missing, the run reports them isolated and returns 200. -/
theorem C4_witness :
    (DailyRestore.lambda_handler
        { DailyRestore.sampleEnv with
          download := fun b => if b = "cloud_bucket" then .notFound else .ok }
        ⟨some "2024-01-01", []⟩).restored_buckets = some ["asset_bucket"] ∧
    (DailyRestore.lambda_handler
        { DailyRestore.sampleEnv with
          download := fun b => if b = "cloud_bucket" then .notFound else .ok }
        ⟨some "2024-01-01", []⟩).failed_buckets = some ["cloud_bucket"] ∧
    (DailyRestore.lambda_handler
        { DailyRestore.sampleEnv with
          download := fun b => if b = "cloud_bucket" then .notFound else .ok }
        ⟨some "2024-01-01", []⟩).statusCode = 200 :=
  C4_restore_per_bucket_isolation.1
    { DailyRestore.sampleEnv with
      download := fun b => if b = "cloud_bucket" then .notFound else .ok }
    ⟨some "2024-01-01", []⟩ "2024-01-01" rfl rfl rfl rfl
    (by rfl) rfl rfl (by rfl)

open DailyBackup in
/-- Witness for the amended C5: a concrete empty-output success leaves
both temporary files removed. -/
theorem C5_amended_witness :
    (⟨[("b1", 100)], [], ["b1"], false, false⟩ :
        DailyBackup.RunState).csvExists = false ∧
    (⟨[("b1", 100)], [], ["b1"], false, false⟩ :
        DailyBackup.RunState).gzipExists = false :=
  (C5_amended_cleanup { sampleEnv with extract := fun _ => .ok 0 }
      (initState []) ⟨"b1", ["m1"]⟩ rfl rfl rfl rfl).1
    ⟨[("b1", 100)], [], ["b1"], false, false⟩
    (by rfl)

open DailyBackup in
/-- Witness for C6: a concrete single-bucket run with no prior checkpoint
and zero-byte extraction returns 200, reports the bucket as succeeded,
uploads nothing, sets the checkpoint to the run time, and removes the
temporary file. -/
theorem C6_witness :
    (DailyBackup.lambda_handler { sampleEnv with extract := fun _ => .ok 0 }
        ⟨[⟨true, "b1", ["m1"]⟩]⟩ []).statusCode = 200 ∧
    (DailyBackup.lambda_handler { sampleEnv with extract := fun _ => .ok 0 }
        ⟨[⟨true, "b1", ["m1"]⟩]⟩ []).buckets = some ["b1"] ∧
    (runWithState { sampleEnv with extract := fun _ => .ok 0 }
        ⟨[⟨true, "b1", ["m1"]⟩]⟩ []).2.uploads = [] ∧
    ckLookup (runWithState { sampleEnv with extract := fun _ => .ok 0 }
        ⟨[⟨true, "b1", ["m1"]⟩]⟩ []).2.ckpts "b1" =
      some ({ sampleEnv with extract := fun _ => .ok 0 } : DailyBackup.Env).now ∧
    (runWithState { sampleEnv with extract := fun _ => .ok 0 }
        ⟨[⟨true, "b1", ["m1"]⟩]⟩ []).2.csvExists = false :=
  C6_empty_output_is_success { sampleEnv with extract := fun _ => .ok 0 }
    ⟨[⟨true, "b1", ["m1"]⟩]⟩ [] "b1" ["m1"]
    rfl rfl rfl (by rfl) (by rfl) (by decide) rfl rfl rfl rfl rfl

open DailyBackup in
/-- Witness for C7: with no stored checkpoint the read returns now minus
86400 seconds, and with a storage fault it raises. -/
theorem C7_witness :
    get_last_backup_time sampleEnv [] "b1" = .ok (100 - 86400) ∧
    get_last_backup_time { sampleEnv with readFault := fun _ => true } [] "b1" =
      .error (.exc ("Failed to retrieve last backup timestamp for " ++ "b1")) :=
  ⟨(C7_checkpoint_read_default_and_fatal sampleEnv [] "b1").1 rfl rfl,
   ((C7_checkpoint_read_default_and_fatal
      { sampleEnv with readFault := fun _ => true } [] "b1").2 rfl).1⟩

open DailyBackup in
/-- Witness for C8: a concrete bucket with an empty measurements list is
skipped with the run state untouched. -/
theorem C8_witness :
    processBucket sampleEnv (initState []) ⟨"b1", []⟩ = .ok (initState []) ∧
    runBuckets sampleEnv (initState []) [⟨"b1", []⟩, ⟨"b2", ["m2"]⟩] =
      runBuckets sampleEnv (initState []) [⟨"b2", ["m2"]⟩] :=
  C8_empty_measurements_skipped sampleEnv (initState []) ⟨"b1", []⟩
    [⟨"b2", ["m2"]⟩] rfl

open DailyBackup in
/-- Witness for the amended C9: a concrete raise from the daily-backup
bucket loop is mapped to a 500 response carrying the exception's message,
and a concrete per-bucket exception in the daily restore is recorded as
that bucket's failure. -/
theorem C9_amended_witness :
    DailyBackup.lambda_handler { sampleEnv with extract := fun _ => .fail }
        ⟨[⟨true, "b1", ["m1"]⟩]⟩ [] =
      ⟨500, none, none, some (Err.exc ("Query failed for " ++ "b1")).toMessage⟩ ∧
    DailyRestore.restoreBucket
        { DailyRestore.sampleEnv with writeTool := fun _ _ => .timeout }
        ⟨[], [], []⟩ ("asset_bucket", "restored_asset_bucket") =
      ⟨[("asset_bucket", "restored_asset_bucket")], [], ["asset_bucket"]⟩ :=
  ⟨C9_amended_handlers_total.2.2.2.2.1
    { sampleEnv with extract := fun _ => .fail }
    ⟨[⟨true, "b1", ["m1"]⟩]⟩ [] [⟨"b1", ["m1"]⟩]
    ⟨[], [], [], true, false⟩ (.exc ("Query failed for " ++ "b1"))
    rfl rfl (by rfl) (by rfl),
   C9_amended_handlers_total.2.2.2.2.2.2.2
    { DailyRestore.sampleEnv with writeTool := fun _ _ => .timeout }
    ⟨[], [], []⟩ ("asset_bucket", "restored_asset_bucket")
    (by rfl)⟩

open DailyRestore in
/-- Witness for C10: a concrete valid restore run processes exactly the
hardcoded source-destination pairs. -/
theorem C10_witness :
    (DailyRestore.runWithState DailyRestore.sampleEnv
        ⟨some "2024-01-01", []⟩).2.processed =
      [("asset_bucket", "restored_asset_bucket"),
       ("cloud_bucket", "restored_cloud_bucket")] :=
  (C10_restore_hardcoded_targets DailyRestore.sampleEnv
    ⟨some "2024-01-01", []⟩ "2024-01-01" rfl rfl rfl rfl).1

end Claims

end TfMulti
